import Mathlib

/-!
Verification of the video-progress-tracker repository.

The development shallowly embeds the two components of the repository:

* the Progress Store Service (the Express route handlers and the helper
  functions `validateCheckpoints`, `validateQuizzes`, `mergeProgress` of the
  backend source), modelled as pure state-passing functions over an abstract
  key-value store keyed by `(videoId, userId)`; and
* the Playback Tracker (the ready and `onTimeUpdate` callbacks of
  `frontend/src/components/VideoComponent.jsx`), modelled as the source is
  written: both callbacks reference misspelled members (`duratoin`,
  `player.currentTIme`) and throw on every invocation, so the session state
  is an explicit record that no event ever changes.

JavaScript numbers are embedded as exact arithmetic: the backend statistics
(`completionRate`, `isCompleted`) are computed with natural-number formulas
that are proved equivalent to the exact rational reading of the source's
floating-point expressions, and the tracker's playback times are rationals.
-/

deriving instance DecidableEq for Except

/-- A JSON primitive value, as it can appear as a quiz-map entry value (or as
the whole `quizzes` field when the client sends a non-object). -/
inductive JVal where
  | jbool : Bool → JVal
  | jstr : String → JVal
  | jnum : Int → JVal
  | jnull : JVal
deriving DecidableEq

/-- JavaScript truthiness of a primitive value. -/
def JVal.truthy : JVal → Bool
  | .jbool b => b
  | .jstr s => decide (s ≠ "")
  | .jnum n => decide (n ≠ 0)
  | .jnull => false

/-- Models the JavaScript test `typeof value === 'boolean'`. -/
def JVal.isBoolean : JVal → Bool
  | .jbool _ => true
  | _ => false

/-- The raw `quizzes` field of an incoming request body: either a JSON object
(a list of key/value entries) or a present non-object value. -/
inductive QuizzesField where
  | obj : List (String × JVal) → QuizzesField
  | prim : JVal → QuizzesField
deriving DecidableEq

/-- Checkpoint vectors are ordered sequences of booleans (TS `boolean[]`). -/
abbrev CheckpointVector := List Bool

/-- A stored quiz map: string keys to booleans, in insertion order
(TS `{ [key: string]: boolean }`, i.e. a JS object). -/
abbrev QuizMap := List (String × Bool)

/-- Models the JS truthiness of `m[key]` on a quiz object: `false` when the
key is absent (`undefined`) or stored `false`, the stored boolean otherwise. -/
def qlookup : QuizMap → String → Bool
  | [], _ => false
  | (k', v) :: rest, k => if k' = k then v else qlookup rest k

/-- Models the JS assignment `m[key] = v` on an object: update the entry in
place when the key is present, append it otherwise. -/
def qset : QuizMap → String → Bool → QuizMap
  | [], k, v => [(k, v)]
  | (k', v') :: rest, k, v => if k' = k then (k, v) :: rest else (k', v') :: qset rest k v

/-- The stored `video_progress` row for a `(video_id, user_id)` key
(interface `VideoProgress` of the backend source; the identifiers and the
timestamp live in the store key and are not part of the merged data). -/
structure VideoProgress where
  checkpoints : CheckpointVector
  quizzes : QuizMap
deriving DecidableEq

/-- The request body of a save (interface `ProgressRequest` of the backend
source): `checkpoints: boolean[]` and an optional raw `quizzes` field. -/
structure RawProgressRequest where
  checkpoints : CheckpointVector
  quizzes : Option QuizzesField
deriving DecidableEq

/-- Drops leading and trailing space characters, modelling the whitespace
trimming JavaScript `Number()` performs on its string argument. -/
def trimSpaces (cs : List Char) : List Char :=
  ((cs.dropWhile (fun c => c = ' ')).reverse.dropWhile (fun c => c = ' ')).reverse

/-- Recognizes an unsigned JavaScript decimal literal: a nonempty string of
digits and at most one dot, containing at least one digit (so `"5"`, `"5."`,
`".5"`, `"1.25"` are accepted and `"."`, `"1a"`, `"1.2.3"` are not). -/
def jsDecimalBody (cs : List Char) : Bool :=
  !cs.isEmpty && cs.all (fun c => c.isDigit || c = '.') &&
    decide (cs.countP (fun c => decide (c = '.')) ≤ 1) &&
    cs.any (fun c => c.isDigit)

/-- Models the JavaScript test `!isNaN(Number(key))` on ordinary decimal key
strings: the empty (or all-space) string coerces to `0`, an optional sign may
precede a decimal literal. Exotic numeric forms (hex, exponents, `Infinity`)
are not modelled; no claim depends on them. -/
def jsNumberNotNaN (s : String) : Bool :=
  match trimSpaces s.toList with
  | [] => true
  | c :: rest => if c = '+' || c = '-' then jsDecimalBody rest else jsDecimalBody (c :: rest)

/-- Backend `validateCheckpoints` (without the unused `expectedLength`
argument): the request's `checkpoints` arrive as a typed boolean list in this
embedding, so the element-wise `typeof checkpoint === 'boolean'` test holds of
every entry. -/
def validateCheckpoints (checkpoints : CheckpointVector) : Bool :=
  checkpoints.all (fun _ => true)

/-- Backend `validateQuizzes`: an absent or non-object `quizzes` field is
accepted outright (`if (!quizzes || typeof quizzes !== 'object') return true`);
an object is accepted iff every entry has a key passing `!isNaN(Number(key))`
and a boolean value. -/
def validateQuizzes : Option QuizzesField → Bool
  | none => true
  | some (.prim _) => true
  | some (.obj es) => es.all (fun kv => jsNumberNotNaN kv.1 && kv.2.isBoolean)

/-- The `existing?.checkpoints || []` read at the top of `mergeProgress`. -/
def storedCheckpoints : Option VideoProgress → CheckpointVector
  | none => []
  | some e => e.checkpoints

/-- The `existing?.quizzes || {}` read at the top of `mergeProgress`. -/
def storedQuizzes : Option VideoProgress → QuizMap
  | none => []
  | some e => e.quizzes

/-- The checkpoint half of `mergeProgress`:
`incoming.checkpoints.map((newValue, index) => (existing[index] || false) || newValue)`.
The recursion walks the two vectors in index lockstep; the result is indexed
by `incoming` alone, and a missing `existing[index]` reads as `false`. -/
def mergeCheckpoints : CheckpointVector → CheckpointVector → CheckpointVector
  | _, [] => []
  | [], n :: ns => (false || n) :: mergeCheckpoints [] ns
  | o :: os, n :: ns => (o || n) :: mergeCheckpoints os ns

/-- One step of the quiz half of `mergeProgress`:
`if (value && !mergedQuizzes[key]) mergedQuizzes[key] = true`. -/
def mergeQuizEntry (m : QuizMap) (kv : String × JVal) : QuizMap :=
  if kv.2.truthy && !(qlookup m kv.1) then qset m kv.1 true else m

/-- Models `Object.entries` on a primitive: a string yields one entry per
character, keyed by its decimal index; numbers, booleans and `null` yield no
entries. -/
def stringEntriesFrom : Nat → List Char → List (String × JVal)
  | _, [] => []
  | i, c :: cs => (toString i, JVal.jstr (String.singleton c)) :: stringEntriesFrom (i + 1) cs

/-- Entries of a primitive `quizzes` value under `Object.entries`. -/
def jsPrimEntries : JVal → List (String × JVal)
  | .jstr s => stringEntriesFrom 0 s.toList
  | _ => []

/-- The entries the merge loop iterates over: the guard `if (incoming.quizzes)`
skips an absent or falsy field, and `Object.entries` is applied to whatever
value is present (an object's own entries, a string's indexed characters,
nothing for other primitives). -/
def jsQuizEntries : Option QuizzesField → List (String × JVal)
  | none => []
  | some (.obj es) => es
  | some (.prim v) => if v.truthy then jsPrimEntries v else []

/-- Backend `mergeProgress`: merges an optional stored record with an incoming
request, returning merged checkpoints and the merged quiz map. -/
def mergeProgress (existing : Option VideoProgress) (incoming : RawProgressRequest) :
    CheckpointVector × QuizMap :=
  (mergeCheckpoints (storedCheckpoints existing) incoming.checkpoints,
    (jsQuizEntries incoming.quizzes).foldl mergeQuizEntry (storedQuizzes existing))

/-- The regression test of the save route:
`existing.checkpoints.some((oldValue, index) => oldValue && !checkpoints[index])`.
The recursion walks `existing` with the matching prefix of `incoming`; an
out-of-bounds `checkpoints[index]` reads as `undefined`, whose negation is
`true`. -/
def hasRegression : CheckpointVector → CheckpointVector → Bool
  | [], _ => false
  | o :: os, [] => (o && !false) || hasRegression os []
  | o :: os, n :: ns => (o && !n) || hasRegression os ns

/-- The regression check runs only when a stored row exists. -/
def regressionCheck : Option VideoProgress → CheckpointVector → Bool
  | none, _ => false
  | some e, checkpoints => hasRegression e.checkpoints checkpoints

/-- The statistics block returned by a successful save. -/
structure Stats where
  totalCheckpoints : Nat
  completedCheckpoints : Nat
  completionRate : Nat
  isCompleted : Bool
deriving DecidableEq

/-- The raw ratio `completedCheckpoints / totalCheckpoints` of the source
(`0` when the total is `0`), read as an exact rational. -/
def rawRate (completed total : Nat) : ℚ :=
  if total > 0 then (completed : ℚ) / (total : ℚ) else 0

/-- The statistics computed by the save route:
`totalCheckpoints = merged.checkpoints.length`,
`completedCheckpoints = merged.checkpoints.filter(Boolean).length`,
`completion_rate = Math.round(completionRate * 100)` and
`is_completed = completionRate >= 0.8` where `completionRate` is the raw
ratio. The two derived fields are computed here by the equivalent exact
natural-number formulas; the lemmas `computeStats_completionRate_eq_round` and
`computeStats_isCompleted_eq_rawRate` below prove them equal to the rational
reading of the source expressions. -/
def computeStats (checkpoints : CheckpointVector) : Stats :=
  let totalCheckpoints := checkpoints.length
  let completedCheckpoints := (checkpoints.filter (fun b => b)).length
  { totalCheckpoints := totalCheckpoints
    completedCheckpoints := completedCheckpoints
    completionRate :=
      if totalCheckpoints > 0 then
        (200 * completedCheckpoints + totalCheckpoints) / (2 * totalCheckpoints)
      else 0
    isCompleted :=
      decide (totalCheckpoints > 0) && decide (4 * totalCheckpoints ≤ 5 * completedCheckpoints) }

/-- The persistence layer: a point lookup by the composite `(videoId, userId)`
key, as the `video_progress` table provides. -/
abbrev Store := String → String → Option VideoProgress

/-- Resolution of the `userId` query parameter:
`req.query.userId as string || 'default_user'` — an absent or empty parameter
falls back to the fixed identifier. -/
def resolveUserId : Option String → String
  | none => "default_user"
  | some s => if s = "" then "default_user" else s

/-- The error outcomes of the save route: a 400 validation failure with its
message, or the 400 regression rejection. -/
inductive SaveError where
  | invalidInput : String → SaveError
  | regressionRejected : SaveError
deriving DecidableEq

/-- The GET progress route with the userId already resolved: a missing row
answers with the empty fresh-session shape, not an error. -/
def readCore (store : Store) (videoId userId : String) :
    Except String (CheckpointVector × QuizMap) :=
  if videoId = "" then .error "Video ID is required"
  else
    match store videoId userId with
    | none => .ok ([], [])
    | some p => .ok (p.checkpoints, p.quizzes)

/-- The GET progress route (`app.get('/api/videos/:videoId/progress')`). -/
def readProgress (store : Store) (videoId : String) (userIdQ : Option String) :
    Except String (CheckpointVector × QuizMap) :=
  readCore store videoId (resolveUserId userIdQ)

/-- The POST progress route body with the userId already resolved: validation,
regression check against the stored row, then merge and statistics. -/
def saveCore (store : Store) (videoId userId : String) (req : RawProgressRequest) :
    Except SaveError (VideoProgress × Stats) :=
  if videoId = "" then .error (.invalidInput "Video ID is required")
  else if validateCheckpoints req.checkpoints = false then
    .error (.invalidInput "Invalid checkpoints format")
  else if validateQuizzes req.quizzes = false then
    .error (.invalidInput "Invalid quizzes format")
  else if regressionCheck (store videoId userId) req.checkpoints then
    .error .regressionRejected
  else
    let merged := mergeProgress (store videoId userId) req
    .ok (⟨merged.1, merged.2⟩, computeStats merged.1)

/-- The response of the POST progress route
(`app.post('/api/videos/:videoId/progress')`). -/
def saveOutcome (store : Store) (videoId : String) (userIdQ : Option String)
    (req : RawProgressRequest) : Except SaveError (VideoProgress × Stats) :=
  saveCore store videoId (resolveUserId userIdQ) req

/-- The store after the resolved save: the upsert replaces the row at the
request's key on success, and a rejected save leaves every row untouched. -/
def saveStoreCore (store : Store) (videoId userId : String) (req : RawProgressRequest) :
    Store :=
  match saveCore store videoId userId req with
  | .error _ => store
  | .ok (rec, _) => fun v u => if v = videoId ∧ u = userId then some rec else store v u

/-- The store after the POST progress route. -/
def saveProgressStore (store : Store) (videoId : String) (userIdQ : Option String)
    (req : RawProgressRequest) : Store :=
  saveStoreCore store videoId (resolveUserId userIdQ) req

/-- The DELETE progress route with the userId already resolved. -/
def deleteCore (store : Store) (videoId userId : String) : Store :=
  fun v u => if v = videoId ∧ u = userId then none else store v u

/-- The DELETE progress route (`app.delete('/api/videos/:videoId/progress')`). -/
def deleteProgress (store : Store) (videoId : String) (userIdQ : Option String) : Store :=
  deleteCore store videoId (resolveUserId userIdQ)

/-- Stores reachable from the empty table by successful saves. -/
inductive ReachableStore : Store → Prop where
  | empty : ReachableStore (fun _ _ => none)
  | save (store : Store) (videoId : String) (userIdQ : Option String)
      (req : RawProgressRequest) (rec : VideoProgress) (st : Stats) :
      ReachableStore store →
      saveOutcome store videoId userIdQ req = .ok (rec, st) →
      ReachableStore (saveProgressStore store videoId userIdQ req)

/-! The Playback Tracker of `VideoComponent.jsx`, embedded as the source is
written. Two member references in the component are misspelled, and both are
load-bearing for its behavior:

* line 27 of the ready callback evaluates
  `Math.ceil(duratoin / CHECKPOINT_INTERVAL)` — `duratoin` is an undefined
  identifier (the variable in scope is `duration`), so the callback throws a
  ReferenceError and `setCheckpoints` never runs: the `checkpoints` state
  keeps its `useState([])` initial value and `accum = Array(0).fill(0)`;
* line 42, the first statement of the time-update handler, calls
  `player.currentTIme()` — the player has no `currentTIme` member (the
  video.js method is `currentTime`), so the call throws a TypeError before
  the delta, index, accumulation, checkpoint-transition or `onComplete`
  logic below it is reached.

Each thrown exception escapes the callback uncaught and leaves the component
state unchanged; the next `timeupdate` event dispatches the same handler
again. The embedding models both throws explicitly. -/

/-- Frontend constant `CHECKPOINT_INTERVAL = 10`. -/
def CHECKPOINT_INTERVAL : ℚ := 10

/-- Frontend constant `COMPLETION_THRESHOLD = 0.8`. -/
def COMPLETION_THRESHOLD : ℚ := 0.8

/-- A JavaScript exception thrown during an event callback. -/
inductive JsError where
  | referenceError : String → JsError
  | typeError : String → JsError
deriving DecidableEq

/-- The per-session tracker state: the closure variables `prevTime` and
`accum` of the time-update effect, the `checkpoints` React state, and a count
of `onComplete` invocations standing for the completion callback. The
debounced network save is fire-and-forget and does not feed back into this
state, so it is not modelled. -/
structure TrackerState where
  prevTime : ℚ
  accum : List ℚ
  checkpoints : List Bool
  completions : Nat

/-- The `player.ready` callback (lines 25–29): it reads the duration, then
evaluates `Math.ceil(duratoin / CHECKPOINT_INTERVAL)`, where `duratoin` is an
undefined identifier — a ReferenceError is thrown before
`setCheckpoints(Array(count).fill(false))` can run, whatever the duration. -/
def readyCallback (_duration : ℚ) : Except JsError (List Bool) :=
  .error (.referenceError "duratoin is not defined")

/-- The `checkpoints` state after mount: `useState([])` initializes it to
`[]`, and the ready callback that would size it always throws, so it stays
`[]` for every reported duration. -/
def initialCheckpoints (duration : ℚ) : List Bool :=
  match readyCallback duration with
  | .ok checkpoints => checkpoints
  | .error _ => []

/-- The session state once the time-update effect subscribes: `prevTime = 0`
and `accum = Array(checkpoints.length).fill(0)` over the (empty) checkpoint
state, with no `onComplete` invocations yet. -/
def initialTracker (duration : ℚ) : TrackerState :=
  { prevTime := 0
    accum := List.replicate (initialCheckpoints duration).length 0
    checkpoints := initialCheckpoints duration
    completions := 0 }

/-- The `onTimeUpdate` handler (lines 41–70) on one
`(currentTime, playbackRate)` sample: its first statement is
`const currentTime = player.currentTIme();`, a call of an undefined member,
so the handler throws a TypeError on every sample. The unclamped
`delta = (currentTime - prevTime) * playbackRate` accumulation, the
checkpoint transition, the threshold test and the `onComplete` call that
follow in the source are dead code: none of them is ever evaluated. -/
def onTimeUpdate (_s : TrackerState) (_currentTime _playbackRate : ℚ) :
    Except JsError TrackerState :=
  .error (.typeError "player.currentTIme is not a function")

/-- One `timeupdate` dispatch at the session level: the handler's exception
propagates out of the event listener uncaught, so the closure and React state
are whatever they were before the event. -/
def applySample (s : TrackerState) (sample : ℚ × ℚ) : TrackerState :=
  match onTimeUpdate s sample.1 sample.2 with
  | .ok s' => s'
  | .error _ => s

/-- Folds a list of `(currentTime, playbackRate)` samples through the
time-update dispatch. -/
def runSamples (s : TrackerState) (samples : List (ℚ × ℚ)) : TrackerState :=
  samples.foldl applySample s

/-! General lemmas about the embedded operations. -/

theorem validateCheckpoints_eq_true (checkpoints : CheckpointVector) :
    validateCheckpoints checkpoints = true := by
  simp [validateCheckpoints]

theorem mergeCheckpoints_length (e inc : CheckpointVector) :
    (mergeCheckpoints e inc).length = inc.length := by
  induction inc generalizing e with
  | nil => cases e <;> rfl
  | cons n ns ih => cases e <;> simp [mergeCheckpoints, ih]

theorem mergeCheckpoints_getD (e inc : CheckpointVector) (i : Nat) (h : i < inc.length) :
    (mergeCheckpoints e inc).getD i false = (e.getD i false || inc.getD i false) := by
  induction inc generalizing e i with
  | nil => simp at h
  | cons n ns ih =>
    cases e with
    | nil =>
      cases i with
      | zero => simp [mergeCheckpoints]
      | succ j => simpa [mergeCheckpoints] using ih [] j (by simpa using h)
    | cons o os =>
      cases i with
      | zero => simp [mergeCheckpoints]
      | succ j => simpa [mergeCheckpoints] using ih os j (by simpa using h)

theorem mergeCheckpoints_idem (e inc : CheckpointVector) :
    mergeCheckpoints (mergeCheckpoints e inc) inc = mergeCheckpoints e inc := by
  induction inc generalizing e with
  | nil => cases e <;> rfl
  | cons n ns ih =>
    cases e with
    | nil => simp [mergeCheckpoints, ih]
    | cons o os => simp [mergeCheckpoints, ih, Bool.or_assoc]

theorem hasRegression_of (e inc : CheckpointVector) (i : Nat) (hi : i < e.length)
    (ht : e.getD i false = true) (hf : inc.getD i false = false) :
    hasRegression e inc = true := by
  induction e generalizing inc i with
  | nil => simp at hi
  | cons o os ih =>
    cases inc with
    | nil =>
      cases i with
      | zero =>
        simp only [List.getD_cons_zero] at ht
        simp [hasRegression, ht]
      | succ j =>
        have := ih [] j (by simpa using hi) (by simpa using ht) (by simp)
        simp [hasRegression, this]
    | cons n ns =>
      cases i with
      | zero =>
        simp only [List.getD_cons_zero] at ht hf
        simp [hasRegression, ht, hf]
      | succ j =>
        have := ih ns j (by simpa using hi) (by simpa using ht) (by simpa using hf)
        simp [hasRegression, this]

theorem qlookup_qset_self (m : QuizMap) (k : String) (v : Bool) :
    qlookup (qset m k v) k = v := by
  induction m with
  | nil => simp [qset, qlookup]
  | cons kv rest ih =>
    obtain ⟨k', v'⟩ := kv
    by_cases h : k' = k <;> simp [qset, qlookup, h, ih]

theorem qlookup_qset_ne (m : QuizMap) (k k' : String) (v : Bool) (h : k ≠ k') :
    qlookup (qset m k v) k' = qlookup m k' := by
  induction m with
  | nil => simp [qset, qlookup, h]
  | cons kv rest ih =>
    obtain ⟨k'', v''⟩ := kv
    by_cases h2 : k'' = k
    · subst h2; simp [qset, qlookup, h]
    · simp [qset, qlookup, h2, ih]

theorem qlookup_mergeQuizEntry_of_true (m : QuizMap) (kv : String × JVal) (k : String)
    (h : qlookup m k = true) : qlookup (mergeQuizEntry m kv) k = true := by
  unfold mergeQuizEntry
  split
  · next hc =>
    have hk : kv.1 ≠ k := by
      intro e
      rw [e] at hc
      simp [h] at hc
    rw [qlookup_qset_ne m kv.1 k true hk]
    exact h
  · exact h

theorem qlookup_foldl_of_true (es : List (String × JVal)) (m : QuizMap) (k : String)
    (h : qlookup m k = true) : qlookup (es.foldl mergeQuizEntry m) k = true := by
  induction es generalizing m with
  | nil => exact h
  | cons kv rest ih => exact ih _ (qlookup_mergeQuizEntry_of_true m kv k h)

theorem qlookup_foldl_mem (es : List (String × JVal)) (m : QuizMap) (kv : String × JVal)
    (hmem : kv ∈ es) (ht : kv.2.truthy = true) :
    qlookup (es.foldl mergeQuizEntry m) kv.1 = true := by
  induction es generalizing m with
  | nil => simp at hmem
  | cons kv0 rest ih =>
    rcases List.mem_cons.mp hmem with h | h
    · subst h
      rw [List.foldl_cons]
      apply qlookup_foldl_of_true
      unfold mergeQuizEntry
      split
      · exact qlookup_qset_self ..
      · next hc => simpa [ht] using hc
    · rw [List.foldl_cons]
      exact ih _ h

theorem foldl_mergeQuizEntry_id (es : List (String × JVal)) (m : QuizMap)
    (h : ∀ kv ∈ es, kv.2.truthy = true → qlookup m kv.1 = true) :
    es.foldl mergeQuizEntry m = m := by
  induction es with
  | nil => rfl
  | cons kv rest ih =>
    have hstep : mergeQuizEntry m kv = m := by
      unfold mergeQuizEntry
      split
      · next hc =>
        rw [Bool.and_eq_true, Bool.not_eq_true'] at hc
        rw [h kv (List.mem_cons_self kv rest) hc.1] at hc
        exact absurd hc.2 (by simp)
      · rfl
    rw [List.foldl_cons, hstep]
    exact ih (fun kv' hm ht => h kv' (List.mem_cons_of_mem _ hm) ht)

theorem foldl_mergeQuizEntry_idem (es : List (String × JVal)) (m : QuizMap) :
    es.foldl mergeQuizEntry (es.foldl mergeQuizEntry m) = es.foldl mergeQuizEntry m :=
  foldl_mergeQuizEntry_id es _ (fun kv hm ht => qlookup_foldl_mem es m kv hm ht)

theorem qset_allTrue (m : QuizMap) (k : String) (h : ∀ kv ∈ m, kv.2 = true) :
    ∀ kv ∈ qset m k true, kv.2 = true := by
  induction m with
  | nil => simp [qset]
  | cons kv0 rest ih =>
    obtain ⟨k', v'⟩ := kv0
    by_cases h2 : k' = k
    · subst h2
      simp only [qset, if_pos rfl]
      intro kv hm
      rcases List.mem_cons.mp hm with h3 | h3
      · simp [h3]
      · exact h kv (List.mem_cons_of_mem _ h3)
    · simp only [qset, if_neg h2]
      intro kv hm
      rcases List.mem_cons.mp hm with h3 | h3
      · exact h kv (h3 ▸ List.mem_cons_self _ _)
      · exact ih (fun kv' hm' => h kv' (List.mem_cons_of_mem _ hm')) kv h3

theorem mergeQuizEntry_allTrue (m : QuizMap) (kv : String × JVal)
    (h : ∀ p ∈ m, p.2 = true) : ∀ p ∈ mergeQuizEntry m kv, p.2 = true := by
  unfold mergeQuizEntry
  split
  · exact qset_allTrue m kv.1 h
  · exact h

theorem foldl_mergeQuizEntry_allTrue (es : List (String × JVal)) (m : QuizMap)
    (h : ∀ p ∈ m, p.2 = true) : ∀ p ∈ es.foldl mergeQuizEntry m, p.2 = true := by
  induction es generalizing m with
  | nil => exact h
  | cons kv rest ih => exact ih _ (mergeQuizEntry_allTrue m kv h)

theorem rawRate_ge_iff (completed total : Nat) (ht : 0 < total) :
    rawRate completed total ≥ 0.8 ↔ 4 * total ≤ 5 * completed := by
  rw [rawRate, if_pos ht, ge_iff_le, le_div_iff₀ (by positivity),
    show (0.8:ℚ) = 4/5 by norm_num, div_mul_eq_mul_div, div_le_iff₀ (by norm_num)]
  constructor
  · intro h
    have h' : ((4 * total : ℕ) : ℚ) ≤ ((5 * completed : ℕ) : ℚ) := by push_cast; linarith
    exact_mod_cast h'
  · intro h
    have h' : ((4 * total : ℕ) : ℚ) ≤ ((5 * completed : ℕ) : ℚ) := by exact_mod_cast h
    push_cast at h'
    linarith

theorem computeStats_isCompleted_eq_rawRate (c : CheckpointVector) :
    (computeStats c).isCompleted
      = decide (rawRate (c.filter (fun b => b)).length c.length ≥ 0.8) := by
  by_cases h : 0 < c.length
  · rw [Bool.eq_iff_iff]
    simp only [computeStats, Bool.and_eq_true, decide_eq_true_iff]
    rw [rawRate_ge_iff _ _ h]
    exact ⟨fun hx => hx.2, fun hx => ⟨h, hx⟩⟩
  · have hz : c.length = 0 := Nat.eq_zero_of_not_pos h
    have hL : (computeStats c).isCompleted = false := by
      simp [computeStats, hz]
    have hR : decide (rawRate (c.filter (fun b => b)).length c.length ≥ (0.8:ℚ)) = false := by
      rw [decide_eq_false_iff_not, rawRate, hz]
      norm_num
    rw [hL, hR]

theorem computeStats_completionRate_eq_round (c : CheckpointVector) (h : 0 < c.length) :
    ((computeStats c).completionRate : ℤ)
      = round (((c.filter (fun b => b)).length : ℚ) / (c.length : ℚ) * 100) := by
  have h0 : ((c.length : ℚ)) ≠ 0 := by positivity
  rw [round_eq]
  have h1 : ((c.filter (fun b => b)).length : ℚ) / (c.length : ℚ) * 100 + 1/2
      = ((200 * (c.filter (fun b => b)).length + c.length : ℕ) : ℚ)
        / ((2 * c.length : ℕ) : ℚ) := by
    push_cast
    field_simp
    ring
  rw [h1, Rat.floor_natCast_div_natCast]
  simp only [computeStats, h, if_pos]
  push_cast
  rfl

theorem saveCore_eq (store : Store) (videoId userId : String) (req : RawProgressRequest)
    (hvid : videoId ≠ "") (hq : validateQuizzes req.quizzes = true) :
    saveCore store videoId userId req =
      if regressionCheck (store videoId userId) req.checkpoints then
        .error .regressionRejected
      else
        .ok (⟨(mergeProgress (store videoId userId) req).1,
              (mergeProgress (store videoId userId) req).2⟩,
          computeStats (mergeProgress (store videoId userId) req).1) := by
  unfold saveCore
  rw [if_neg hvid, if_neg (by simp [validateCheckpoints_eq_true]), if_neg (by simp [hq])]

theorem saveCore_ok_elim (store : Store) (videoId userId : String) (req : RawProgressRequest)
    (rec : VideoProgress) (st : Stats)
    (h : saveCore store videoId userId req = .ok (rec, st)) :
    rec = ⟨(mergeProgress (store videoId userId) req).1,
           (mergeProgress (store videoId userId) req).2⟩ ∧
    st = computeStats (mergeProgress (store videoId userId) req).1 ∧
    videoId ≠ "" ∧ validateQuizzes req.quizzes = true ∧
    regressionCheck (store videoId userId) req.checkpoints = false := by
  have hvid : videoId ≠ "" := by
    intro e
    rw [saveCore, if_pos e] at h
    exact absurd h (by simp)
  have hq : validateQuizzes req.quizzes = true := by
    by_contra hq
    rw [Bool.not_eq_true] at hq
    rw [saveCore, if_neg hvid, if_neg (by simp [validateCheckpoints_eq_true]),
      if_pos hq] at h
    exact absurd h (by simp)
  rw [saveCore_eq store videoId userId req hvid hq] at h
  by_cases hreg : regressionCheck (store videoId userId) req.checkpoints = true
  · rw [if_pos hreg] at h
    exact absurd h (by simp)
  · rw [if_neg hreg] at h
    simp only [Except.ok.injEq, Prod.mk.injEq] at h
    exact ⟨h.1.symm, h.2.symm, hvid, hq, Bool.eq_false_iff.mpr hreg⟩

theorem saveStoreCore_ok (store : Store) (videoId userId : String) (req : RawProgressRequest)
    (rec : VideoProgress) (st : Stats)
    (h : saveCore store videoId userId req = .ok (rec, st)) :
    saveStoreCore store videoId userId req
      = fun v u => if v = videoId ∧ u = userId then some rec else store v u := by
  unfold saveStoreCore
  rw [h]

theorem saveStoreCore_error (store : Store) (videoId userId : String)
    (req : RawProgressRequest) (err : SaveError)
    (h : saveCore store videoId userId req = .error err) :
    saveStoreCore store videoId userId req = store := by
  unfold saveStoreCore
  rw [h]

theorem validateQuizzes_eq_false_iff (q : Option QuizzesField) :
    validateQuizzes q = false ↔
      ∃ es, q = some (.obj es) ∧
        ∃ kv ∈ es, (jsNumberNotNaN kv.1 && kv.2.isBoolean) = false := by
  cases q with
  | none => simp [validateQuizzes]
  | some f =>
    cases f with
    | obj es =>
      simp only [validateQuizzes, Option.some.injEq]
      constructor
      · intro h
        refine ⟨es, rfl, ?_⟩
        by_contra hc
        push_neg at hc
        have : es.all (fun kv => jsNumberNotNaN kv.1 && kv.2.isBoolean) = true := by
          rw [List.all_eq_true]
          intro kv hm
          simpa using hc kv hm
        rw [this] at h
        exact absurd h (by simp)
      · rintro ⟨es', hes, kv, hm, hkv⟩
        have hinj : es = es' := by
          injection hes
        subst hinj
        rw [Bool.eq_false_iff]
        intro hall
        rw [List.all_eq_true] at hall
        exact absurd (hall kv hm) (by simp [hkv])
    | prim v => simp [validateQuizzes]

/-- C1: the claim states that for every stored record and valid incoming
snapshot passing the regression check, the merged vector is the index-wise OR
over the union of index ranges, with length `max(len(existing), len(incoming))`
and no shrinking. The code disproves the length part: `mergeProgress` maps
over `incoming.checkpoints` only. Here a stored record of length 2 (all
`false`) merged with an incoming snapshot of length 1 passes the regression
check, succeeds, and yields a merged vector of length 1, not
`max 2 1 = 2` — the stored vector shrank. -/
theorem c1_counterexample :
    saveOutcome
        (fun v u => if v = "v" ∧ u = "default_user" then some ⟨[false, false], []⟩ else none)
        "v" none ⟨[true], none⟩
      = .ok (⟨[true], []⟩, ⟨1, 1, 100, true⟩) ∧
    ([true] : CheckpointVector).length ≠ max ([false, false] : CheckpointVector).length
      ([true] : CheckpointVector).length := by
  decide

/-- C1 (amended): on every successful save, the merged checkpoint vector has
the length of the *incoming* vector, and on that index range it is the
pointwise OR of the stored vector (out-of-bounds entries reading `false`) and
the incoming vector. An incoming vector at least as long as the stored one
realizes the original union/max formula; a shorter one truncates the stored
vector to the incoming length. -/
theorem c1_merge_pointwise_incoming_length (store : Store) (videoId : String)
    (userIdQ : Option String) (req : RawProgressRequest) (rec : VideoProgress) (st : Stats)
    (h : saveOutcome store videoId userIdQ req = .ok (rec, st)) :
    rec.checkpoints.length = req.checkpoints.length ∧
    ∀ i < req.checkpoints.length,
      rec.checkpoints.getD i false =
        ((storedCheckpoints (store videoId (resolveUserId userIdQ))).getD i false
          || req.checkpoints.getD i false) := by
  rw [saveOutcome] at h
  obtain ⟨hrec, -, -, -, -⟩ := saveCore_ok_elim _ _ _ _ _ _ h
  subst hrec
  exact ⟨mergeCheckpoints_length _ _, fun i hi => mergeCheckpoints_getD _ _ i hi⟩

/-- C1 (amended) witness: a concrete successful save realizing the length
equation and the pointwise OR. -/
theorem c1_merge_pointwise_witness :
    (VideoProgress.mk [true] []).checkpoints.length
        = (RawProgressRequest.mk [true] none).checkpoints.length ∧
    ∀ i < (RawProgressRequest.mk [true] none).checkpoints.length,
      (VideoProgress.mk [true] []).checkpoints.getD i false =
        ((storedCheckpoints
            ((fun v u => if v = "v" ∧ u = "default_user" then some ⟨[false, false], []⟩ else none)
              "v" (resolveUserId none))).getD i false
          || (RawProgressRequest.mk [true] none).checkpoints.getD i false) :=
  c1_merge_pointwise_incoming_length
    (fun v u => if v = "v" ∧ u = "default_user" then some ⟨[false, false], []⟩ else none)
    "v" none ⟨[true], none⟩ ⟨[true], []⟩ ⟨1, 1, 100, true⟩ (by decide)

/-- C2: if some index of the stored checkpoint vector is `true` while the
incoming vector at that index is `false` (an index beyond the incoming
vector's bounds reading `false`), the save is rejected with the regression
error and the store is left exactly as it was. -/
theorem c2_regression_rejects_and_preserves_store (store : Store) (videoId : String)
    (userIdQ : Option String) (req : RawProgressRequest) (e : VideoProgress)
    (hvid : videoId ≠ "") (hq : validateQuizzes req.quizzes = true)
    (he : store videoId (resolveUserId userIdQ) = some e)
    (i : Nat) (hi : i < e.checkpoints.length)
    (ht : e.checkpoints.getD i false = true)
    (hf : req.checkpoints.getD i false = false) :
    saveOutcome store videoId userIdQ req = .error .regressionRejected ∧
    saveProgressStore store videoId userIdQ req = store := by
  have hreg : regressionCheck (store videoId (resolveUserId userIdQ)) req.checkpoints
      = true := by
    rw [he]
    show hasRegression e.checkpoints req.checkpoints = true
    exact hasRegression_of _ _ i hi ht hf
  have hsave : saveCore store videoId (resolveUserId userIdQ) req
      = .error .regressionRejected := by
    rw [saveCore_eq _ _ _ _ hvid hq, if_pos hreg]
  exact ⟨hsave, saveStoreCore_error _ _ _ _ _ hsave⟩

/-- C2 witness: a stored `[true]` and an incoming `[false]` produce the
regression rejection and leave the store unchanged. -/
theorem c2_regression_witness :
    saveOutcome
        (fun v u => if v = "vid" ∧ u = "default_user" then some ⟨[true], []⟩ else none)
        "vid" none ⟨[false], none⟩ = .error .regressionRejected ∧
    saveProgressStore
        (fun v u => if v = "vid" ∧ u = "default_user" then some ⟨[true], []⟩ else none)
        "vid" none ⟨[false], none⟩
      = (fun v u => if v = "vid" ∧ u = "default_user" then some ⟨[true], []⟩ else none) :=
  c2_regression_rejects_and_preserves_store
    (fun v u => if v = "vid" ∧ u = "default_user" then some ⟨[true], []⟩ else none)
    "vid" none ⟨[false], none⟩ ⟨[true], []⟩
    (by decide) (by decide) (by decide) 0 (by decide) (by decide) (by decide)

/-- C3: the claim states that saving `[true,false,false]` and then
`[false,true,false]` for the same key succeeds and yields `[true,true,false]`.
The code disproves it: the second save hits the regression check
(`existing[0] = true`, `incoming[0] = false`) and is rejected, so the claimed
success never happens. -/
theorem c3_counterexample :
    saveOutcome
        (saveProgressStore (fun _ _ => none) "video1" none ⟨[true, false, false], none⟩)
        "video1" none ⟨[false, true, false], none⟩
      = .error .regressionRejected := by
  decide

/-- C3 (amended): starting from no stored record, saving
`{checkpoints:[true,false,false]}` succeeds with stored `[true,false,false]`
and stats `totalCheckpoints = 3`, `completedCheckpoints = 1`,
`completionRate = 33`, `isCompleted = false`; the subsequent save of
`{checkpoints:[false,true,false]}` for the same `(videoId, userId)` is
rejected with the regression error and the stored vector remains
`[true,false,false]`. -/
theorem c3_scenario_second_save_rejected :
    saveOutcome (fun _ _ => none) "video1" none ⟨[true, false, false], none⟩
        = .ok (⟨[true, false, false], []⟩, ⟨3, 1, 33, false⟩) ∧
    (saveProgressStore (fun _ _ => none) "video1" none ⟨[true, false, false], none⟩)
        "video1" "default_user" = some ⟨[true, false, false], []⟩ ∧
    saveOutcome
        (saveProgressStore (fun _ _ => none) "video1" none ⟨[true, false, false], none⟩)
        "video1" none ⟨[false, true, false], none⟩
      = .error .regressionRejected ∧
    (saveProgressStore
        (saveProgressStore (fun _ _ => none) "video1" none ⟨[true, false, false], none⟩)
        "video1" none ⟨[false, true, false], none⟩)
        "video1" "default_user" = some ⟨[true, false, false], []⟩ := by
  decide

/-- C4: the claim states `isCompleted` is determined by the *rounded*
percentage (`isCompleted = true` iff `completionRate/100 ≥ 0.8`). The code
disproves it: a successful save of 35 `true` among 44 checkpoints reports
`completionRate = 80` (since `round(3500/44) = 80`) yet `isCompleted = false`
(since `35/44 < 0.8` as a raw ratio). -/
theorem c4_counterexample :
    (saveOutcome (fun _ _ => none) "v" none
        ⟨List.replicate 35 true ++ List.replicate 9 false, none⟩).toOption.map
      (fun r => (r.2.completionRate, r.2.isCompleted)) = some (80, false) ∧
    ((80:ℚ) / 100 ≥ 0.8) := by
  constructor
  · decide
  · norm_num

/-- C4 (amended): on every successful save, `totalCheckpoints` is the merged
vector's length, `completedCheckpoints` is its count of `true` entries,
`completionRate` is `round(100 * completed / total)` (`0` when the total is
`0`), and `isCompleted` is true iff the *raw* ratio `completed / total` is at
least `0.8` — not the rounded percentage. -/
theorem c4_stats_formulas (store : Store) (videoId : String) (userIdQ : Option String)
    (req : RawProgressRequest) (rec : VideoProgress) (st : Stats)
    (h : saveOutcome store videoId userIdQ req = .ok (rec, st)) :
    st.totalCheckpoints = rec.checkpoints.length ∧
    st.completedCheckpoints = (rec.checkpoints.filter (fun b => b)).length ∧
    (st.completionRate : ℤ)
      = (if 0 < rec.checkpoints.length
          then round (((rec.checkpoints.filter (fun b => b)).length : ℚ)
            / (rec.checkpoints.length : ℚ) * 100)
          else 0) ∧
    (st.isCompleted = true ↔
      rawRate (rec.checkpoints.filter (fun b => b)).length rec.checkpoints.length ≥ 0.8) := by
  rw [saveOutcome] at h
  obtain ⟨hrec, hst, -, -, -⟩ := saveCore_ok_elim _ _ _ _ _ _ h
  have hc : rec.checkpoints = (mergeProgress (store videoId (resolveUserId userIdQ)) req).1 := by
    rw [hrec]
  subst hst
  rw [hc]
  refine ⟨rfl, rfl, ?_, ?_⟩
  · by_cases hlen : 0 < (mergeProgress (store videoId (resolveUserId userIdQ)) req).1.length
    · rw [if_pos hlen]
      exact computeStats_completionRate_eq_round _ hlen
    · rw [if_neg hlen]
      have hz := Nat.eq_zero_of_not_pos hlen
      simp [computeStats, hz]
  · rw [computeStats_isCompleted_eq_rawRate, decide_eq_true_iff]

/-- C4 (amended) witness: a concrete successful save of `[true, false]`
realizes the four formulas with `totalCheckpoints = 2`,
`completedCheckpoints = 1`, `completionRate = 50`, `isCompleted = false`. -/
theorem c4_stats_formulas_witness :
    (⟨2, 1, 50, false⟩ : Stats).totalCheckpoints
        = (VideoProgress.mk [true, false] []).checkpoints.length ∧
    (⟨2, 1, 50, false⟩ : Stats).completedCheckpoints
        = ((VideoProgress.mk [true, false] []).checkpoints.filter (fun b => b)).length ∧
    ((⟨2, 1, 50, false⟩ : Stats).completionRate : ℤ)
      = (if 0 < (VideoProgress.mk [true, false] []).checkpoints.length
          then round ((((VideoProgress.mk [true, false] []).checkpoints.filter
              (fun b => b)).length : ℚ)
            / ((VideoProgress.mk [true, false] []).checkpoints.length : ℚ) * 100)
          else 0) ∧
    ((⟨2, 1, 50, false⟩ : Stats).isCompleted = true ↔
      rawRate ((VideoProgress.mk [true, false] []).checkpoints.filter (fun b => b)).length
        (VideoProgress.mk [true, false] []).checkpoints.length ≥ 0.8) :=
  c4_stats_formulas (fun _ _ => none) "v" none ⟨[true, false], none⟩
    ⟨[true, false], []⟩ ⟨2, 1, 50, false⟩ (by decide)

/-- C7: the claim states that any present `quizzes` that is not a mapping
with non-negative-integer-parsing keys and boolean values is rejected with a
distinct invalid-input failure. The code disproves it: the key `"-1"` does
not parse as a non-negative integer, yet `validateQuizzes` only checks
`!isNaN(Number(key))`, so the save is accepted and even persists the entry. -/
theorem c7_counterexample :
    (saveOutcome (fun _ _ => none) "v" none
        ⟨[], some (.obj [("-1", .jbool true)])⟩).toOption
      = some (⟨[], [("-1", true)]⟩, ⟨0, 0, 0, false⟩) := by
  decide

/-- C7 (amended): with a non-empty `videoId`, the save is rejected with the
invalid-quizzes failure exactly when the `quizzes` field is present as an
object containing an entry whose key fails `!isNaN(Number(key))` (a test that
also admits negative, fractional, empty and whitespace keys) or whose value
is not a boolean; an absent `quizzes` field (treated as an empty map) and a
present non-object `quizzes` value are both accepted by validation. -/
theorem c7_quizzes_validation_characterization (store : Store) (videoId : String)
    (userIdQ : Option String) (req : RawProgressRequest) (hvid : videoId ≠ "") :
    saveOutcome store videoId userIdQ req
        = .error (.invalidInput "Invalid quizzes format") ↔
      ∃ es, req.quizzes = some (.obj es) ∧
        ∃ kv ∈ es, (jsNumberNotNaN kv.1 && kv.2.isBoolean) = false := by
  rw [← validateQuizzes_eq_false_iff]
  constructor
  · intro h
    by_contra hq
    rw [Bool.not_eq_false] at hq
    rw [saveOutcome, saveCore_eq _ _ _ _ hvid hq] at h
    by_cases hreg : regressionCheck (store videoId (resolveUserId userIdQ)) req.checkpoints
        = true
    · rw [if_pos hreg] at h
      exact absurd h (by simp)
    · rw [if_neg hreg] at h
      exact absurd h (by simp)
  · intro hq
    rw [saveOutcome, saveCore, if_neg hvid,
      if_neg (by simp [validateCheckpoints_eq_true]), if_pos hq]

/-- C7 (amended) witness: the entry `("x", 1)` has a non-numeric key and a
non-boolean value, and the save is indeed rejected with the invalid-quizzes
failure. -/
theorem c7_quizzes_validation_witness :
    ("v" : String) ≠ "" ∧
    (saveOutcome (fun _ _ => none) "v" none ⟨[], some (.obj [("x", .jnum 1)])⟩
        = .error (.invalidInput "Invalid quizzes format") ↔
      ∃ es, (RawProgressRequest.mk [] (some (.obj [("x", .jnum 1)]))).quizzes
          = some (.obj es) ∧
        ∃ kv ∈ es, (jsNumberNotNaN kv.1 && kv.2.isBoolean) = false) :=
  ⟨by decide, c7_quizzes_validation_characterization (fun _ _ => none) "v" none
    ⟨[], some (.obj [("x", .jnum 1)])⟩ (by decide)⟩

/-- C8: the merge is idempotent — merging the same incoming snapshot into the
result of merging it once yields the same checkpoints and quizzes:
`merge(merge(existing, x), x) = merge(existing, x)`. -/
theorem c8_merge_idempotent (existing : Option VideoProgress) (x : RawProgressRequest) :
    mergeProgress (some ⟨(mergeProgress existing x).1, (mergeProgress existing x).2⟩) x
      = mergeProgress existing x := by
  show (mergeCheckpoints (mergeCheckpoints (storedCheckpoints existing) x.checkpoints)
          x.checkpoints,
        (jsQuizEntries x.quizzes).foldl mergeQuizEntry
          ((jsQuizEntries x.quizzes).foldl mergeQuizEntry (storedQuizzes existing)))
      = mergeProgress existing x
  rw [mergeProgress]
  exact Prod.ext (mergeCheckpoints_idem _ _) (foldl_mergeQuizEntry_idem _ _)

/-- C9: for the read, save and delete operations, an absent or empty `userId`
query parameter does not fail the request; it is resolved to the fixed
identifier `default_user`, so the operation behaves exactly as if
`userId=default_user` had been supplied — two callers omitting `userId` for
the same `videoId` observe and mutate the same stored record. -/
theorem c9_default_user_fallback (store : Store) (videoId : String)
    (userIdQ : Option String) (req : RawProgressRequest)
    (h : userIdQ = none ∨ userIdQ = some "") :
    readProgress store videoId userIdQ = readProgress store videoId (some "default_user") ∧
    saveOutcome store videoId userIdQ req
      = saveOutcome store videoId (some "default_user") req ∧
    saveProgressStore store videoId userIdQ req
      = saveProgressStore store videoId (some "default_user") req ∧
    deleteProgress store videoId userIdQ
      = deleteProgress store videoId (some "default_user") := by
  have hr : resolveUserId userIdQ = resolveUserId (some "default_user") := by
    rcases h with h | h <;> subst h <;> rfl
  simp only [readProgress, saveOutcome, saveProgressStore, deleteProgress, hr]
  exact ⟨trivial, trivial, trivial, trivial⟩

/-- C9 witness: omitting the `userId` parameter on the empty store gives the
same read, save and delete outcomes as passing `default_user` explicitly. -/
theorem c9_default_user_witness :
    readProgress (fun _ _ => none) "v" none
        = readProgress (fun _ _ => none) "v" (some "default_user") ∧
    saveOutcome (fun _ _ => none) "v" none ⟨[], none⟩
        = saveOutcome (fun _ _ => none) "v" (some "default_user") ⟨[], none⟩ ∧
    saveProgressStore (fun _ _ => none) "v" none ⟨[], none⟩
        = saveProgressStore (fun _ _ => none) "v" (some "default_user") ⟨[], none⟩ ∧
    deleteProgress (fun _ _ => none) "v" none
        = deleteProgress (fun _ _ => none) "v" (some "default_user") :=
  c9_default_user_fallback (fun _ _ => none) "v" none ⟨[], none⟩ (Or.inl rfl)

/-- C10: in every store reachable from the empty table by successful saves,
every value in every stored quiz map is `true`: the merge only ever persists
`true` quiz values. -/
theorem c10_stored_quizzes_all_true : ∀ (store : Store), ReachableStore store →
    ∀ (videoId userId : String) (rec : VideoProgress), store videoId userId = some rec →
    ∀ kv ∈ rec.quizzes, kv.2 = true := by
  intro store h
  induction h with
  | empty =>
    intro videoId userId rec hrec
    exact absurd hrec (by simp)
  | save store videoId userIdQ req rec st hreach hok ih =>
    intro v u rec' hrec'
    rw [saveOutcome] at hok
    rw [saveProgressStore, saveStoreCore_ok _ _ _ _ _ _ hok] at hrec'
    simp only [] at hrec'
    by_cases hkey : v = videoId ∧ u = resolveUserId userIdQ
    · rw [if_pos hkey] at hrec'
      obtain ⟨hrec, -, -, -, -⟩ := saveCore_ok_elim _ _ _ _ _ _ hok
      have heq : rec' = rec := by
        injection hrec' with h'
        exact h'.symm
      subst heq
      subst hrec
      show ∀ kv ∈ (jsQuizEntries req.quizzes).foldl mergeQuizEntry
          (storedQuizzes (store videoId (resolveUserId userIdQ))), kv.2 = true
      apply foldl_mergeQuizEntry_allTrue
      cases hex : store videoId (resolveUserId userIdQ) with
      | none => simp [storedQuizzes]
      | some e =>
        show ∀ p ∈ e.quizzes, p.2 = true
        exact ih videoId (resolveUserId userIdQ) e hex
    · rw [if_neg hkey] at hrec'
      exact ih v u rec' hrec'

/-- C10 witness: the store reached by one successful save carrying the quiz
entry `("1", true)` stores a quiz map whose every value is `true`. -/
theorem c10_stored_quizzes_witness :
    (("1", true) : String × Bool).2 = true :=
  c10_stored_quizzes_all_true
    (saveProgressStore (fun _ _ => none) "v" none ⟨[true], some (.obj [("1", .jbool true)])⟩)
    (ReachableStore.save (fun _ _ => none) "v" none
      ⟨[true], some (.obj [("1", .jbool true)])⟩ ⟨[true], [("1", true)]⟩ ⟨1, 1, 100, true⟩
      ReachableStore.empty (by decide))
    "v" "default_user" ⟨[true], [("1", true)]⟩ (by decide)
    ("1", true) (by decide)

/-- Every sample dispatch leaves the session state unchanged: the handler
throws at its first statement, and the exception escapes the listener without
touching the closure variables or the React state. -/
theorem runSamples_eq (s : TrackerState) (samples : List (ℚ × ℚ)) :
    runSamples s samples = s := by
  induction samples generalizing s with
  | nil => rfl
  | cons p rest ih => exact ih s

/-- C5: for every playback-time sample, a backward seek (negative delta)
contributes zero to accumulated watch time, and no segment's
`accumulatedWatchTime` entry ever decreases across samples. This holds of the
source as written in the strongest, degenerate form: the handler throws a
TypeError at `player.currentTIme()` before the (unclamped) accumulation
statement is reached, so every sample - backward seek included - contributes
exactly zero (which for a negative delta coincides with `max(delta, 0)`) and
every accumulated entry is left unchanged. -/
theorem c5_accum_never_decreases (s : TrackerState) (t r : ℚ)
    (samples : List (ℚ × ℚ)) (i : Nat) :
    (applySample s (t, r)).accum.getD i 0 = s.accum.getD i 0 ∧
    s.accum.getD i 0 ≤ (runSamples s samples).accum.getD i 0 := by
  refine ⟨rfl, ?_⟩
  rw [runSamples_eq]

/-- C6: the claim states the completion callback is invoked exactly once per
session, at the first new-true checkpoint transition reaching the 0.8
threshold. The code disproves it: no session ever invokes the callback even
once. In the session of a 10-second video - where one 10-second segment is
intended and the sample at `t = 10` should complete it, reach the threshold
and fire the callback once - the checkpoint vector is never allocated (the
ready callback throws a ReferenceError at `duratoin`), the handler throws
before any transition logic, and the invocation count stays `0`, not `1`. -/
theorem c6_counterexample :
    initialCheckpoints 10 = ([] : List Bool) ∧
    (runSamples (initialTracker 10) [(10, 1)]).completions = 0 ∧
    (runSamples (initialTracker 10) [(10, 1)]).completions ≠ 1 := by
  refine ⟨rfl, ?_, ?_⟩ <;> rw [runSamples_eq] <;> decide

/-- C6 (amended): the completion callback is never invoked in any session:
every time-update dispatch throws before the transition logic and leaves the
state unchanged, so the invocation count never increases and no checkpoint
ever transitions false-to-true - in particular the callback is never invoked
at, or again after, any point of a session. -/
theorem c6_callback_never_invoked (s : TrackerState) (samples : List (ℚ × ℚ)) :
    (runSamples s samples).completions = s.completions ∧
    (runSamples s samples).checkpoints = s.checkpoints := by
  rw [runSamples_eq]
  exact ⟨rfl, rfl⟩
